import Mathlib

/-!
# Verification of the RFQ proposal-generation core

A shallow embedding, in Lean 4, of the pause/resume/stop run controller
(`backend/generation_control.py`), the outline model and path computation
(`backend/advanced_generator.py` / `backend/proposal_orchestrator.py`,
`SectionNode.path_str`), the tolerant JSON-response parsing and draft
normalization of `backend/advanced_generator.py`, the evidence-context
assembly and prompt building (`backend/prompts.py`), and the per-node
orchestration loop of `generate_advanced_proposal`.

Modelling conventions:
* Python dicts holding JSON data are association lists `List (String × Json)`
  with first-match lookup; insertion appends at the end (Python dicts keep
  insertion order).
* Python strings are Lean `String`s; slicing `s[a:b]` is `pySlice` with
  Python's clamping rules, `s[:n]` is `pyTake`.
* Machine integers are `Int`/`Nat` (no overflow is relevant here).
* `list(set(xs))` is modelled as `List.dedup`; Python's set iteration order
  is unspecified, and every property proved below about deduplicated lists
  is order-insensitive (membership and `Nodup` only).
* JSON numbers are modelled as integers; floating-point literals are outside
  the embedding (no claim depends on them).
* Wall-clock values (`datetime.now()`) are modelled as an opaque fixed string.
-/

/-! ## JSON values -/

/-- A parsed JSON value (the result of `json.loads`).  Objects keep field
order, as Python dicts do. -/
inductive Json where
  | null : Json
  | bool (b : Bool) : Json
  | num (n : Int) : Json
  | str (s : String) : Json
  | arr (elems : List Json) : Json
  | obj (fields : List (String × Json)) : Json
  deriving Repr

mutual

/-- Decidable equality on `Json` (the automatic derivation does not handle
the nested `List` occurrences). -/
def Json.decEq : (a b : Json) → Decidable (a = b)
  | .null, .null => isTrue rfl
  | .bool x, .bool y =>
      if h : x = y then isTrue (h ▸ rfl)
      else isFalse (fun hc => h (by injection hc))
  | .num x, .num y =>
      if h : x = y then isTrue (h ▸ rfl)
      else isFalse (fun hc => h (by injection hc))
  | .str x, .str y =>
      if h : x = y then isTrue (h ▸ rfl)
      else isFalse (fun hc => h (by injection hc))
  | .arr xs, .arr ys =>
      match Json.decEqList xs ys with
      | isTrue h => isTrue (h ▸ rfl)
      | isFalse h => isFalse (fun hc => h (by injection hc))
  | .obj xs, .obj ys =>
      match Json.decEqFields xs ys with
      | isTrue h => isTrue (h ▸ rfl)
      | isFalse h => isFalse (fun hc => h (by injection hc))
  | .null, .bool _ => isFalse (fun h => Json.noConfusion h)
  | .null, .num _ => isFalse (fun h => Json.noConfusion h)
  | .null, .str _ => isFalse (fun h => Json.noConfusion h)
  | .null, .arr _ => isFalse (fun h => Json.noConfusion h)
  | .null, .obj _ => isFalse (fun h => Json.noConfusion h)
  | .bool _, .null => isFalse (fun h => Json.noConfusion h)
  | .bool _, .num _ => isFalse (fun h => Json.noConfusion h)
  | .bool _, .str _ => isFalse (fun h => Json.noConfusion h)
  | .bool _, .arr _ => isFalse (fun h => Json.noConfusion h)
  | .bool _, .obj _ => isFalse (fun h => Json.noConfusion h)
  | .num _, .null => isFalse (fun h => Json.noConfusion h)
  | .num _, .bool _ => isFalse (fun h => Json.noConfusion h)
  | .num _, .str _ => isFalse (fun h => Json.noConfusion h)
  | .num _, .arr _ => isFalse (fun h => Json.noConfusion h)
  | .num _, .obj _ => isFalse (fun h => Json.noConfusion h)
  | .str _, .null => isFalse (fun h => Json.noConfusion h)
  | .str _, .bool _ => isFalse (fun h => Json.noConfusion h)
  | .str _, .num _ => isFalse (fun h => Json.noConfusion h)
  | .str _, .arr _ => isFalse (fun h => Json.noConfusion h)
  | .str _, .obj _ => isFalse (fun h => Json.noConfusion h)
  | .arr _, .null => isFalse (fun h => Json.noConfusion h)
  | .arr _, .bool _ => isFalse (fun h => Json.noConfusion h)
  | .arr _, .num _ => isFalse (fun h => Json.noConfusion h)
  | .arr _, .str _ => isFalse (fun h => Json.noConfusion h)
  | .arr _, .obj _ => isFalse (fun h => Json.noConfusion h)
  | .obj _, .null => isFalse (fun h => Json.noConfusion h)
  | .obj _, .bool _ => isFalse (fun h => Json.noConfusion h)
  | .obj _, .num _ => isFalse (fun h => Json.noConfusion h)
  | .obj _, .str _ => isFalse (fun h => Json.noConfusion h)
  | .obj _, .arr _ => isFalse (fun h => Json.noConfusion h)

/-- Decidable equality on lists of `Json` values. -/
def Json.decEqList : (xs ys : List Json) → Decidable (xs = ys)
  | [], [] => isTrue rfl
  | [], _ :: _ => isFalse (fun h => List.noConfusion h)
  | _ :: _, [] => isFalse (fun h => List.noConfusion h)
  | x :: xs, y :: ys =>
      match Json.decEq x y with
      | isFalse h1 => isFalse (fun hc => h1 (by injection hc))
      | isTrue h1 =>
          match Json.decEqList xs ys with
          | isTrue h2 => isTrue (h1 ▸ h2 ▸ rfl)
          | isFalse h2 => isFalse (fun hc => h2 (by injection hc))

/-- Decidable equality on lists of `Json` object fields. -/
def Json.decEqFields : (xs ys : List (String × Json)) → Decidable (xs = ys)
  | [], [] => isTrue rfl
  | [], _ :: _ => isFalse (fun h => List.noConfusion h)
  | _ :: _, [] => isFalse (fun h => List.noConfusion h)
  | (k, v) :: xs, (k2, v2) :: ys =>
      if hk : k = k2 then
        match Json.decEq v v2 with
        | isFalse h1 =>
            isFalse (fun hc => by
              injection hc with hh ht
              exact h1 (congrArg Prod.snd hh))
        | isTrue h1 =>
            match Json.decEqFields xs ys with
            | isTrue h2 => isTrue (hk ▸ h1 ▸ h2 ▸ rfl)
            | isFalse h2 => isFalse (fun hc => h2 (by injection hc))
      else
        isFalse (fun hc => by
          injection hc with hh ht
          exact hk (congrArg Prod.fst hh))

end

instance : DecidableEq Json := Json.decEq

/-! ### Python dicts as insertion-ordered association lists

Every Python dict of the embedded code (the JSON objects flowing through the
pipeline and the controller's `_sessions` map) is a `List (String × α)` with
one entry per key, looked up by first match; writing a fresh key appends
(Python dicts keep insertion order). -/

/-- `d.get(k)` / `d[k]` lookup: first entry with the key. -/
def alistGet? {α : Type} (o : List (String × α)) (k : String) : Option α :=
  (o.find? (fun kv => kv.1 == k)).map (fun kv => kv.2)

/-- `d[k] = v`: replace in place when the key exists, else append. -/
def alistPut {α : Type} (o : List (String × α)) (k : String) (v : α) :
    List (String × α) :=
  if (alistGet? o k).isSome then
    o.map (fun kv => if kv.1 == k then (k, v) else kv)
  else o ++ [(k, v)]

/-- A Python dict holding JSON data, in insertion order. -/
abbrev Obj := List (String × Json)

/-- `o.get(k)` returning `None` when absent. -/
def dictGet? (o : Obj) (k : String) : Option Json :=
  alistGet? o k

/-- Python `o.get(k, d)`. -/
def pyGet (o : Obj) (k : String) (d : Json) : Json :=
  (dictGet? o k).getD d

/-- Python `k in o`. -/
def dictHasKey (o : Obj) (k : String) : Bool :=
  (dictGet? o k).isSome

/-- Python `o[k] = v`. -/
def dictSet (o : Obj) (k : String) (v : Json) : Obj :=
  alistPut o k v

/-- Python `o.setdefault(k, v)`: insert only when the key is absent. -/
def dictSetdefault (o : Obj) (k : String) (v : Json) : Obj :=
  if dictHasKey o k then o else o ++ [(k, v)]

/-! ## Python string primitives -/

/-- Python `s[:n]` (character count, as Python slices by code point). -/
def pyTake (s : String) (n : Nat) : String :=
  String.mk (s.data.take n)

/-- Resolve one Python slice endpoint: negative indices count from the end,
then the result is clamped into `[0, len]`. -/
def pySliceIdx (len : Nat) (i : Int) : Nat :=
  if i < 0 then (i + len).toNat.min len else i.toNat.min len

/-- Python `s[a:b]` (an empty string when `b ≤ a` after resolution). -/
def pySlice (s : String) (a b : Int) : String :=
  let lo := pySliceIdx s.data.length a
  let hi := pySliceIdx s.data.length b
  String.mk ((s.data.take hi).drop lo)

/-- Python `s.find(c)` for a one-character needle: first index, `-1` when
absent. -/
def pyFind (s : String) (c : Char) : Int :=
  match s.data.findIdx? (fun x => x == c) with
  | some i => (i : Int)
  | none => -1

/-- Python `s.rfind(c)` for a one-character needle: last index, `-1` when
absent. -/
def pyRfind (s : String) (c : Char) : Int :=
  match s.data.reverse.findIdx? (fun x => x == c) with
  | some j => (s.data.length - 1 - j : Int)
  | none => -1

/-- Python `sep.join(parts)`. -/
def joinSep (sep : String) : List String → String
  | [] => ""
  | [x] => x
  | x :: y :: xs => x ++ sep ++ joinSep sep (y :: xs)

/-! ## Run controller (`backend/generation_control.py`) -/

/-- `GenerationStatus` (generation_control.py lines 11-16). -/
inductive GenerationStatus where
  | running : GenerationStatus
  | paused : GenerationStatus
  | stopped : GenerationStatus
  | completed : GenerationStatus
  | error : GenerationStatus
  deriving DecidableEq, Repr

/-- One session record of `GenerationController._sessions`
(generation_control.py lines 28-35). -/
structure SessionData where
  status : GenerationStatus
  current_section : String
  total_sections : Nat
  completed_sections : Nat
  started_at : String
  message : String
  deriving DecidableEq, Repr

/-- The `_sessions` dict, keyed by session id.  Every controller method runs
under the single lock, so each is one atomic transition on this map. -/
abbrev Sessions := List (String × SessionData)

/-- Look a session up by id (first match; the map holds one entry per key). -/
def getSession (m : Sessions) (id : String) : Option SessionData :=
  alistGet? m id

/-- The status of a session, when it exists. -/
def statusOf (m : Sessions) (id : String) : Option GenerationStatus :=
  (getSession m id).map (fun s => s.status)

/-- `dict[id] = v` on the session map. -/
def putSession (m : Sessions) (id : String) (v : SessionData) : Sessions :=
  alistPut m id v

/-- Apply `f` to the session stored at `id`, when present (the
`if session_id in self._sessions` pattern of every mutator). -/
def modifySession (m : Sessions) (id : String) (f : SessionData → SessionData) :
    Sessions :=
  match getSession m id with
  | some s => putSession m id (f s)
  | none => m

/-- `create_session` (lines 25-35): a fresh RUNNING record; `started_at` is
wall clock, modelled as a fixed opaque string. -/
def create_session (m : Sessions) (id : String) : Sessions :=
  putSession m id
    { status := GenerationStatus.running, current_section := "",
      total_sections := 0, completed_sections := 0,
      started_at := "now", message := "" }

/-- `set_status` (lines 42-47). -/
def set_status (m : Sessions) (id : String) (st : GenerationStatus)
    (msg : String) : Sessions :=
  modifySession m id (fun s => { s with status := st, message := msg })

/-- `pause` (lines 49-55): unconditionally marks any existing session
PAUSED — there is no check of the current status. -/
def pause (m : Sessions) (id : String) : Sessions × Bool :=
  match getSession m id with
  | some s => (putSession m id { s with status := GenerationStatus.paused }, true)
  | none => (m, false)

/-- `resume` (lines 57-63): moves a session to RUNNING only when its current
status is PAUSED. -/
def resume (m : Sessions) (id : String) : Sessions × Bool :=
  match getSession m id with
  | some s =>
      if s.status = GenerationStatus.paused then
        (putSession m id { s with status := GenerationStatus.running }, true)
      else (m, false)
  | none => (m, false)

/-- `stop` (lines 65-71): unconditionally marks any existing session
STOPPED. -/
def stop (m : Sessions) (id : String) : Sessions × Bool :=
  match getSession m id with
  | some s => (putSession m id { s with status := GenerationStatus.stopped }, true)
  | none => (m, false)

/-- `update_progress` (lines 73-79). -/
def update_progress (m : Sessions) (id : String) (cur : String)
    (completed total : Nat) : Sessions :=
  modifySession m id (fun s =>
    { s with current_section := cur, completed_sections := completed,
             total_sections := total })

/-- One iteration of the `wait_if_paused` polling loop body (lines 95-104):
`some b` means "return b now", `none` means "sleep and poll again" (the
status is PAUSED — or COMPLETED or ERROR, which the body also falls through
on). -/
def waitCheck (m : Sessions) (id : String) : Option Bool :=
  match statusOf m id with
  | none => some false
  | some st =>
      if st = GenerationStatus.stopped then some false
      else if st = GenerationStatus.running then some true
      else none

/-- `wait_if_paused` (lines 89-106) observed against a trace of session-map
contents: `states n` is what the (concurrently mutable) map holds at the
n-th poll.  The result is `some b` when the loop returns `b` within `fuel`
polls, `none` when it is still sleeping/polling after `fuel` polls. -/
def wait_if_paused (states : Nat → Sessions) (id : String) : Nat → Option Bool
  | 0 => none
  | fuel + 1 =>
      match waitCheck (states 0) id with
      | some b => some b
      | none => wait_if_paused (fun n => states (n + 1)) id fuel

/-! ## Outline model (`SectionNode`, advanced_generator.py lines 29-47;
the identical class appears in proposal_orchestrator.py lines 35-52) -/

/-- One heading of the proposal TOC (advanced_generator.py lines 29-34). -/
structure SectionNode where
  title : String
  level : Int
  order : Int
  parent : Option Int
  deriving DecidableEq, Repr

/-- The `while` loop of `SectionNode.path_str` (lines 40-46), written as the
list of ancestor titles it appends after the node's own title, in visit
order.  The loop's `chain.append` becomes the cons here; the guard order is
the source's: membership in `visited` is tested first, `visited.add(p)`
happens before the range test, and an out-of-range parent breaks.  (`p` is
typed `Optional[int]`, so the `isinstance(p, int)` test always passes and
only the range test remains.)  Lean accepts this definition as
terminating — the set of in-range indices not yet visited strictly shrinks —
which is exactly the guarded-walk termination argument. -/
def pathWalk (tree : List SectionNode) (visited : List Int) : Option Int → List String
  | none => []
  | some q =>
      if hq : q ∈ visited then []
      else
        if h : 0 ≤ q ∧ q.toNat < tree.length then
          (tree.get ⟨q.toNat, h.2⟩).title ::
            pathWalk tree (q :: visited) (tree.get ⟨q.toNat, h.2⟩).parent
        else []
termination_by p => ((Finset.range tree.length).filter
    (fun (i : Nat) => (i : Int) ∉ visited)).card
decreasing_by
  simp_wf
  apply Finset.card_lt_card
  have hq2 : ((q.toNat : Int)) = q := Int.toNat_of_nonneg h.1
  refine ⟨fun i hi => ?_, fun hsup => ?_⟩
  · simp only [Finset.mem_filter, List.mem_cons, not_or] at hi ⊢
    exact ⟨hi.1, hi.2.2⟩
  · have hmem : q.toNat ∈ (Finset.range tree.length).filter
        (fun (i : Nat) => (i : Int) ∉ visited) := by
      simp only [Finset.mem_filter, Finset.mem_range, hq2]
      exact ⟨h.2, hq⟩
    have h2 := hsup hmem
    simp only [Finset.mem_filter, List.mem_cons, not_or, hq2] at h2
    exact h2.2.1 trivial

/-- `SectionNode.path_str` (lines 36-47): the chain starts with the node's
own title, ancestors are appended by the walk, and the reversed chain is
joined with `" > "`. -/
def SectionNode.path_str (self : SectionNode) (tree : List SectionNode) : String :=
  joinSep " > " ((self.title :: pathWalk tree [] self.parent).reverse)

/-! ## JSON parsing (`json.loads` and the two-tier response parsing,
advanced_generator.py lines 158-171 and 215-226).

The parser below models CPython's `json.loads` on the fragment the system
exchanges: JSON objects, arrays, strings (with the standard escapes),
integer numerals, `true`/`false`/`null`, and insignificant whitespace.
JSON numbers are modelled as integers: floating-point literals are outside
the embedding, and no claim depends on them. -/

/-- JSON insignificant whitespace: space, linefeed, tab, carriage return
(code points 32, 10, 9, 13). -/
def isWsChar (c : Char) : Bool :=
  c.toNat == 32 || c.toNat == 10 || c.toNat == 9 || c.toNat == 13

/-- Drop leading insignificant whitespace. -/
def skipWs : List Char → List Char
  | [] => []
  | c :: cs => if isWsChar c then skipWs cs else c :: cs

/-- ASCII decimal digit test. -/
def isDigitChar (c : Char) : Bool := '0' ≤ c && c ≤ '9'

/-- Split a longest digit run off the front. -/
def takeDigits : List Char → (List Char × List Char)
  | [] => ([], [])
  | c :: cs =>
      if isDigitChar c then
        let p := takeDigits cs
        (c :: p.1, p.2)
      else ([], c :: cs)

/-- Decimal value of a digit run. -/
def digitsToNat (l : List Char) : Nat :=
  l.foldl (fun a c => a * 10 + (c.toNat - '0'.toNat)) 0

/-- Hexadecimal digit value, for `\u` escapes (written over the code
points: 48-57 are `0`-`9`, 97-102 are `a`-`f`, 65-70 are `A`-`F`). -/
def hexVal (c : Char) : Option Nat :=
  let n := c.toNat
  if 48 ≤ n && n ≤ 57 then some (n - 48)
  else if 97 ≤ n && n ≤ 102 then some (n - 87)
  else if 65 ≤ n && n ≤ 70 then some (n - 55)
  else none

/-- Consume an expected literal. -/
def expectChars : List Char → List Char → Option (List Char)
  | [], rest => some rest
  | p :: ps, c :: rest => if c == p then expectChars ps rest else none
  | _ :: _, [] => none

/-- Parse the body of a JSON string literal (the opening quote already
consumed), returning the decoded characters and the rest of the input. -/
def parseStrChars : Nat → List Char → Option (List Char × List Char)
  | 0, _ => none
  | _ + 1, [] => none
  | fuel + 1, c :: rest =>
      if c == '"' then some ([], rest)
      else if c == '\\' then
        match rest with
        | [] => none
        | e :: rest2 =>
            let cont := fun (ch : Char) (rs : List Char) =>
              (parseStrChars fuel rs).map (fun p => (ch :: p.1, p.2))
            if e == '"' then cont '"' rest2
            else if e == '\\' then cont '\\' rest2
            else if e == '/' then cont '/' rest2
            else if e == 'n' then cont '\n' rest2
            else if e == 't' then cont '\t' rest2
            else if e == 'r' then cont '\r' rest2
            else if e == 'b' then cont (Char.ofNat 8) rest2
            else if e == 'f' then cont (Char.ofNat 12) rest2
            else if e == 'u' then
              match rest2 with
              | a :: b :: c2 :: d :: rest3 =>
                  match hexVal a, hexVal b, hexVal c2, hexVal d with
                  | some ha, some hb, some hc, some hd =>
                      cont (Char.ofNat (((ha * 16 + hb) * 16 + hc) * 16 + hd)) rest3
                  | _, _, _, _ => none
              | _ => none
            else none
      else (parseStrChars fuel rest).map (fun p => (c :: p.1, p.2))

mutual

/-- Parse one JSON value (recursive descent; `fuel` bounds the recursion
depth and list lengths and is chosen generously by `json_loads`). -/
def parseVal : Nat → List Char → Option (Json × List Char)
  | 0, _ => none
  | fuel + 1, cs =>
      match skipWs cs with
      | [] => none
      | c :: rest =>
          if c == 'n' then (expectChars ['u', 'l', 'l'] rest).map (fun r => (Json.null, r))
          else if c == 't' then (expectChars ['r', 'u', 'e'] rest).map (fun r => (Json.bool true, r))
          else if c == 'f' then (expectChars ['a', 'l', 's', 'e'] rest).map (fun r => (Json.bool false, r))
          else if c == '"' then
            (parseStrChars (rest.length + 1) rest).map (fun p => (Json.str (String.mk p.1), p.2))
          else if c == '[' then
            match skipWs rest with
            | ']' :: r2 => some (Json.arr [], r2)
            | r2 => (parseElems fuel r2).map (fun p => (Json.arr p.1, p.2))
          else if c == '{' then
            match skipWs rest with
            | '}' :: r2 => some (Json.obj [], r2)
            | r2 => (parseMembers fuel r2).map (fun p => (Json.obj p.1, p.2))
          else if c == '-' then
            match takeDigits rest with
            | ([], _) => none
            | (ds, r2) => some (Json.num (-(digitsToNat ds : Int)), r2)
          else if isDigitChar c then
            match takeDigits (c :: rest) with
            | (ds, r2) => some (Json.num (digitsToNat ds), r2)
          else none

/-- Parse the elements of a non-empty JSON array, up to and including the
closing bracket. -/
def parseElems : Nat → List Char → Option (List Json × List Char)
  | 0, _ => none
  | fuel + 1, cs =>
      match parseVal fuel cs with
      | none => none
      | some (v, rest) =>
          match skipWs rest with
          | ',' :: r2 => (parseElems fuel r2).map (fun p => (v :: p.1, p.2))
          | ']' :: r2 => some ([v], r2)
          | _ => none

/-- Parse the members of a non-empty JSON object, up to and including the
closing brace. -/
def parseMembers : Nat → List Char → Option (List (String × Json) × List Char)
  | 0, _ => none
  | fuel + 1, cs =>
      match skipWs cs with
      | '"' :: rest =>
          match parseStrChars (rest.length + 1) rest with
          | none => none
          | some (kcs, r1) =>
              match skipWs r1 with
              | ':' :: r2 =>
                  match parseVal fuel r2 with
                  | none => none
                  | some (v, r3) =>
                      match skipWs r3 with
                      | ',' :: r4 =>
                          (parseMembers fuel r4).map
                            (fun p => ((String.mk kcs, v) :: p.1, p.2))
                      | '}' :: r4 => some ([(String.mk kcs, v)], r4)
                      | _ => none
              | _ => none
      | _ => none

end

/-- `json.loads`: parse one value and require only whitespace after it. -/
def json_loads (s : String) : Option Json :=
  match parseVal (2 * s.data.length + 4) s.data with
  | some (v, rest) => if skipWs rest = [] then some v else none
  | none => none

/-- The best-effort extraction substring of the parse fallback
(advanced_generator.py lines 166-168): `raw[raw.find("{") : raw.rfind("}") + 1]`
with Python's slicing rules (`find`/`rfind` give `-1` when absent). -/
def braceSlice (raw : String) : String :=
  pySlice raw (pyFind raw '{') (pyRfind raw '}' + 1)

/-- The two-tier response parsing policy shared by the draft call
(lines 161-171) and the refine call (lines 217-226): strict parse first,
then a reparse of the first-brace/last-brace substring, else a raised error
whose message is a fixed prefix (`"LLM did not return valid JSON. Raw
response: "` for draft, `"Refinement failed. Raw response: "` for refine)
followed by the raw text. -/
def parse_llm_response (errPrefix : String) (raw : String) : Except String Json :=
  match json_loads raw with
  | some v => Except.ok v
  | none =>
      match json_loads (braceSlice raw) with
      | some v => Except.ok v
      | none => Except.error (errPrefix ++ raw)

/-! ## Draft normalization (advanced_generator.py lines 173-181) -/

/-- The post-parse normalization of `generate_advanced_section`
(lines 173-181):

* `output.setdefault("cited_chunks", [])`
* `output["cited_chunks"] = list(set(output["cited_chunks"] + [str(rid) for
  rid in rfq_ids if rid]))`
* `setdefault` of `image_suggestions`, `notes`, `risks`, `assumptions`
  to `[]`.

`list(set(...))` is modelled as `List.dedup` (set order is unspecified in
Python; only membership and duplicate-freeness are used below).  When the
model returned `cited_chunks` as a non-list the Python `+` raises
`TypeError`; that is the `.error` branch, caught one level up by the
per-node handler.  The retrieved ids are strings, so `str(rid)` is the
identity and `if rid` keeps exactly the non-empty ones. -/
def normalizeOthers (o : Obj) : Obj :=
  dictSetdefault
    (dictSetdefault
      (dictSetdefault
        (dictSetdefault o "image_suggestions" (Json.arr []))
        "notes" (Json.arr []))
      "risks" (Json.arr []))
    "assumptions" (Json.arr [])

def normalizeDraft (output : Obj) (rfq_ids : List String) : Except String Obj :=
  match dictGet? (dictSetdefault output "cited_chunks" (Json.arr [])) "cited_chunks" with
  | some (Json.arr cited) =>
      Except.ok (normalizeOthers (dictSet
        (dictSetdefault output "cited_chunks" (Json.arr []))
        "cited_chunks"
        (Json.arr ((cited ++ (rfq_ids.filter (fun r => r != "")).map Json.str).dedup))))
  | _ => Except.error "TypeError: can only concatenate list"

/-! ## Evidence context and prompts (advanced_generator.py lines 112-122,
prompts.py lines 11 and 230-250) -/

/-- `MAX_CONTEXT_CHARS` (prompts.py line 11). -/
def MAX_CONTEXT_CHARS : Nat := 3500

/-- `full_context` (advanced_generator.py lines 114-121): the RFQ chunks
under a `[RFQ CONTEXT]` label, then one labelled block per auxiliary
collection that returned a non-empty chunk list, all joined with blank
lines.  `kb_map` keeps dict insertion order. -/
def build_full_context (rfq_texts : List String)
    (kb_map : List (String × List String)) : String :=
  joinSep "\n\n" (("[RFQ CONTEXT]\n" ++ joinSep "\n" rfq_texts) ::
    (kb_map.filter (fun p => !p.2.isEmpty)).map
      (fun p => "[" ++ p.1.toUpper ++ "]\n" ++ joinSep "\n" p.2))

/-- `context = full_context[:MAX_CONTEXT_CHARS]` (line 122): the combined
context truncated after concatenation. -/
def build_context (rfq_texts : List String)
    (kb_map : List (String × List String)) : String :=
  pyTake (build_full_context rfq_texts kb_map) MAX_CONTEXT_CHARS

/-- The per-title learned style data (the values of `template_section_map`,
advanced_generator.py lines 314-330; `build_template_prompt` reads these
keys with `.get`, and the map entries always carry all four). -/
structure TemplateData where
  writing_sample : String
  target_words : Int
  table_count : Int
  image_count : Int
  deriving DecidableEq, Repr

/-- `STRICT_JSON_SCHEMA` (prompts.py lines 16-29). -/
def STRICT_JSON_SCHEMA : String :=
  "\nYou MUST output STRICT JSON only, with this schema:\n\x7b\n  \"title\": str,\n  \"content\": str,\n  \"image_suggestions\": [\n    \x7b\"placeholder_id\": str, \"description\": str, \"position\": \"before|after|inline\"\x7d\n  ],\n  \"cited_chunks\": [str],\n  \"notes\": [str],\n  \"risks\": [str],\n  \"assumptions\": [str]\n\x7d\n"

/-- `build_template_prompt` (prompts.py lines 230-250):
`TEMPLATE_STYLE_PROMPT.format(...)` written out as the concatenation of the
template's literal segments with the substituted values; the RFQ excerpt and
the evidence context are each truncated to `MAX_CONTEXT_CHARS` at this point
(lines 244-245). -/
def build_template_prompt (title : String) (level : Int) (outline_path : String)
    (rfq_excerpt : String) (context : String) (td : TemplateData) : String :=
  "\nSECTION TITLE: " ++ title ++
  "\nSECTION LEVEL: " ++ toString level ++
  "\nOUTLINE PATH: " ++ outline_path ++
  "\n\n[WRITING SAMPLE FROM TEMPLATE]\n" ++ td.writing_sample ++
  "\n\n[RFQ CONTEXT]\n" ++ pyTake rfq_excerpt MAX_CONTEXT_CHARS ++
  "\n\n[EVIDENCE CONTEXT]\n" ++ pyTake context MAX_CONTEXT_CHARS ++
  "\n\nINSTRUCTIONS:\n1) Write the \"" ++ title ++
  "\" section matching the style from the template writing sample above\n2) TARGET WORD COUNT: " ++
  toString td.target_words ++
  " (\xb110%)\n3) WRITING STYLE: Match the template\x27s style as closely as possible\n4) TABLES: Include " ++
  toString td.table_count ++
  " table(s) if expected\n5) IMAGES: Suggest " ++
  toString td.image_count ++
  " image placeholder(s) if expected\n6) Use ONLY provided evidence. Insert [[TODO: ...]] for missing information\n7) Follow the JSON schema exactly\n\n" ++
  STRICT_JSON_SCHEMA ++ "\n"

/-! ## The orchestration loop (`generate_advanced_proposal`,
advanced_generator.py lines 248-439)

The two generation passes for one node (retrieval, the draft call of
`generate_advanced_section` and the refine call of
`refine_section_advanced`, lines 358-376) are network calls; the loop model
takes their per-node outcome as an oracle `gen`:
`Except.ok (draft_json, refined_json)` for a node whose `try` body
succeeded, `Except.error e` when some step of the body raised an exception
with text `e` (`str(e)`).  Likewise `waitRes idx` is the value the blocking
`controller.wait_if_paused(session_id)` call returns at the boundary before
node `idx`; concurrent pause/resume/stop callers are abstracted into this
oracle, and the writes the orchestrator itself performs on the controller
are threaded explicitly. -/

/-- The placeholder body of the per-node exception handler (lines 405-407):
`f"**{node.title}**\n\nContent generation failed. Please regenerate this
section.\n\nError: {str(e)}"`. -/
def fallbackContent (title e : String) : String :=
  "**" ++ title ++
  "**\n\nContent generation failed. Please regenerate this section.\n\nError: " ++ e

/-- The section entry appended on success (lines 379-387). -/
def happySection (node : SectionNode) (refined : Obj) : Obj :=
  [("title", pyGet refined "title" (Json.str node.title)),
   ("content", pyGet refined "content" (Json.str "")),
   ("level", Json.num node.level),
   ("notes", pyGet refined "notes" (Json.arr [])),
   ("risks", pyGet refined "risks" (Json.arr [])),
   ("assumptions", pyGet refined "assumptions" (Json.arr [])),
   ("image_suggestions", pyGet refined "image_suggestions" (Json.arr []))]

/-- The evidence-log entry appended on success (lines 389-398). -/
def evidenceEntry (node : SectionNode) (outline_path : String) (top_k : Nat)
    (draft refined : Obj) : Obj :=
  [("title", Json.str node.title),
   ("level", Json.num node.level),
   ("outline_path", Json.str outline_path),
   ("retrieval_top_k", Json.num top_k),
   ("retrieved", pyGet draft "cited_chunks" (Json.arr [])),
   ("notes", pyGet refined "notes" (Json.arr [])),
   ("risks", pyGet refined "risks" (Json.arr [])),
   ("assumptions", pyGet refined "assumptions" (Json.arr []))]

/-- The section entry appended by the exception handler (lines 402-413);
note that the handler appends nothing to the evidence log. -/
def fallbackSection (node : SectionNode) (e : String) : Obj :=
  [("title", Json.str node.title),
   ("content", Json.str (fallbackContent node.title e)),
   ("level", Json.num node.level),
   ("notes", Json.arr []),
   ("risks", Json.arr []),
   ("assumptions", Json.arr []),
   ("image_suggestions", Json.arr [])]

/-- What `generate_advanced_proposal` leaves behind: the `sections` and
`evidence_log.sections` lists of the returned proposal dict (lines 423-437)
and the final contents of the controller's session map. -/
structure RunOutcome where
  sections : List Obj
  evidence : List Obj
  ctrl : Sessions
  deriving Repr

/-- The `for idx, node in enumerate(toc_nodes)` loop (lines 340-413).
`remaining` walks the node list while `tree` stays the full list (used for
`node.path_str(toc_nodes)` and `len(toc_nodes)`). -/
def runNodes (tree : List SectionNode) (top_k : Nat)
    (gen : Nat → Except String (Obj × Obj)) (waitRes : Nat → Bool)
    (sid : Option String) :
    List SectionNode → Nat → List Obj → List Obj → Sessions → RunOutcome
  | [], _, secs, ev, m => ⟨secs, ev, m⟩
  | node :: rest, idx, secs, ev, m =>
      match sid with
      | some id =>
          if !(waitRes idx) then
            ⟨secs, ev, set_status m id GenerationStatus.stopped "Stopped by user"⟩
          else
            let m2 := update_progress m id node.title idx tree.length
            let outline_path := node.path_str tree
            match gen idx with
            | Except.ok (d, r) =>
                runNodes tree top_k gen waitRes sid rest (idx + 1)
                  (secs ++ [happySection node r])
                  (ev ++ [evidenceEntry node outline_path top_k d r]) m2
            | Except.error e =>
                runNodes tree top_k gen waitRes sid rest (idx + 1)
                  (secs ++ [fallbackSection node e]) ev m2
      | none =>
          let outline_path := node.path_str tree
          match gen idx with
          | Except.ok (d, r) =>
              runNodes tree top_k gen waitRes sid rest (idx + 1)
                (secs ++ [happySection node r])
                (ev ++ [evidenceEntry node outline_path top_k d r]) m
          | Except.error e =>
              runNodes tree top_k gen waitRes sid rest (idx + 1)
                (secs ++ [fallbackSection node e]) ev m

/-- `generate_advanced_proposal` (lines 248-439) around the loop: session
creation (line 265), the initial `update_progress('', 0, len(toc_nodes))`
(lines 337-338), the node loop, and the unconditional completion marking
after the loop (lines 417-420) — which runs whether the loop finished or
was left by the stop `break`. -/
def generate_advanced_proposal (toc_nodes : List SectionNode) (top_k : Nat)
    (gen : Nat → Except String (Obj × Obj)) (waitRes : Nat → Bool)
    (sid : Option String) (m0 : Sessions) : RunOutcome :=
  let m1 := match sid with
    | some id => create_session m0 id
    | none => m0
  let m2 := match sid with
    | some id => update_progress m1 id "" 0 toc_nodes.length
    | none => m1
  let out := runNodes toc_nodes top_k gen waitRes sid toc_nodes 0 [] [] m2
  match sid with
  | some id =>
      let m3 := set_status out.ctrl id GenerationStatus.completed
        "Proposal generation completed"
      let m4 := update_progress m3 id "Completed" toc_nodes.length toc_nodes.length
      ⟨out.sections, out.evidence, m4⟩
  | none => out

/-- A sequence of `resume` calls (on arbitrary session ids), applied in
order. -/
def applyResumes (m : Sessions) : List String → Sessions
  | [] => m
  | i :: rest => applyResumes (resume m i).1 rest

/-- The section entry one node contributes: the happy-path entry on success,
the exception handler's placeholder on failure. -/
def nodeResult (node : SectionNode) (res : Except String (Obj × Obj)) : Obj :=
  match res with
  | Except.ok (_, r2) => happySection node r2
  | Except.error e => fallbackSection node e

/-- Whether the per-node generation succeeded. -/
def genOk (res : Except String (Obj × Obj)) : Bool :=
  match res with
  | Except.ok _ => true
  | Except.error _ => false

/-- The sections list a full (never-stopped) traversal of `l` produces,
starting at loop index `idx`. -/
def processedSections (gen : Nat → Except String (Obj × Obj)) :
    List SectionNode → Nat → List Obj
  | [], _ => []
  | node :: rest, idx =>
      nodeResult node (gen idx) :: processedSections gen rest (idx + 1)

/-- The evidence-log list a full traversal produces: one entry per
successful node, nothing for failed nodes. -/
def processedEvidence (tree : List SectionNode) (top_k : Nat)
    (gen : Nat → Except String (Obj × Obj)) :
    List SectionNode → Nat → List Obj
  | [], _ => []
  | node :: rest, idx =>
      match gen idx with
      | Except.ok (d, r2) =>
          evidenceEntry node (node.path_str tree) top_k d r2 ::
            processedEvidence tree top_k gen rest (idx + 1)
      | Except.error _ => processedEvidence tree top_k gen rest (idx + 1)

/-- How many of the `n` generation outcomes starting at index `idx`
succeeded. -/
def okCountFrom (gen : Nat → Except String (Obj × Obj)) : Nat → Nat → Nat
  | _, 0 => 0
  | idx, n + 1 =>
      (if genOk (gen idx) then 1 else 0) + okCountFrom gen (idx + 1) n

/-! ## Lookup lemmas for the association-list dict embedding -/

theorem alistGet?_append_of_isSome {α : Type} (o o2 : List (String × α))
    (k : String) (h : (alistGet? o k).isSome) :
    alistGet? (o ++ o2) k = alistGet? o k := by
  induction o with
  | nil => simp [alistGet?] at h
  | cons kv o ih =>
      by_cases hk : kv.1 == k
      · simp [alistGet?, List.find?, hk]
      · have hk2 : (kv.1 == k) = false := by simpa using hk
        have hh : (alistGet? o k).isSome := by
          simpa [alistGet?, List.find?, hk2] using h
        simpa [alistGet?, List.find?, hk2] using ih hh

theorem alistGet?_append_of_none {α : Type} (o o2 : List (String × α))
    (k : String) (h : alistGet? o k = none) :
    alistGet? (o ++ o2) k = alistGet? o2 k := by
  induction o with
  | nil => simp
  | cons kv o ih =>
      by_cases hk : kv.1 == k
      · simp [alistGet?, List.find?, hk] at h
      · have hk2 : (kv.1 == k) = false := by simpa using hk
        have hh : alistGet? o k = none := by
          simpa [alistGet?, List.find?, hk2] using h
        simpa [alistGet?, List.find?, hk2] using ih hh

theorem alistGet?_map_self {α : Type} (o : List (String × α)) (k : String)
    (v : α) (h : (alistGet? o k).isSome) :
    alistGet? (o.map (fun kv => if kv.1 == k then (k, v) else kv)) k = some v := by
  induction o with
  | nil => simp [alistGet?] at h
  | cons kv o ih =>
      by_cases hk : kv.1 == k
      · simp [alistGet?, List.find?, hk]
      · have hk2 : (kv.1 == k) = false := by simpa using hk
        have hh : (alistGet? o k).isSome := by
          simpa [alistGet?, List.find?, hk2] using h
        simpa [alistGet?, List.find?, hk2] using ih hh

theorem alistGet?_map_other {α : Type} (o : List (String × α)) (k k2 : String)
    (v : α) (h : k2 ≠ k) :
    alistGet? (o.map (fun kv => if kv.1 == k then (k, v) else kv)) k2 =
      alistGet? o k2 := by
  have hne : (k == k2) = false := by
    simp only [beq_eq_false_iff_ne, ne_eq]
    exact fun he => h he.symm
  induction o with
  | nil => simp
  | cons kv o ih =>
      by_cases hk : kv.1 == k
      · have hkeq : kv.1 = k := by simpa using hk
        simpa [alistGet?, List.find?, hk, hkeq, hne] using ih
      · have hk2 : (kv.1 == k) = false := by simpa using hk
        by_cases hm : kv.1 == k2
        · simp [alistGet?, List.find?, hk2, hm]
        · have hm2 : (kv.1 == k2) = false := by simpa using hm
          simpa [alistGet?, List.find?, hk2, hm2] using ih

theorem alistGet?_put_self {α : Type} (o : List (String × α)) (k : String)
    (v : α) : alistGet? (alistPut o k v) k = some v := by
  unfold alistPut
  by_cases hs : (alistGet? o k).isSome
  · rw [if_pos hs]
    exact alistGet?_map_self o k v hs
  · have hx : alistGet? o k = none := Option.not_isSome_iff_eq_none.mp hs
    rw [if_neg hs, alistGet?_append_of_none o _ k hx]
    simp [alistGet?, List.find?]

theorem alistGet?_put_other {α : Type} (o : List (String × α)) (k k2 : String)
    (v : α) (h : k2 ≠ k) :
    alistGet? (alistPut o k v) k2 = alistGet? o k2 := by
  have hne : (k == k2) = false := by
    simp only [beq_eq_false_iff_ne, ne_eq]
    exact fun he => h he.symm
  unfold alistPut
  by_cases hs : (alistGet? o k).isSome
  · rw [if_pos hs]
    exact alistGet?_map_other o k k2 v h
  · rw [if_neg hs]
    by_cases h2 : (alistGet? o k2).isSome
    · exact alistGet?_append_of_isSome o _ k2 h2
    · have hx2 : alistGet? o k2 = none := Option.not_isSome_iff_eq_none.mp h2
      rw [alistGet?_append_of_none o _ k2 hx2, hx2]
      simp [alistGet?, List.find?, hne]

theorem dictGet?_setdefault_self (o : Obj) (k : String) (v : Json) :
    dictGet? (dictSetdefault o k v) k = some ((dictGet? o k).getD v) := by
  unfold dictSetdefault dictHasKey
  by_cases hs : (dictGet? o k).isSome
  · rw [if_pos hs]
    cases hx : dictGet? o k
    · rw [hx] at hs
      simp at hs
    · simp [hx]
  · have hx : dictGet? o k = none := Option.not_isSome_iff_eq_none.mp hs
    rw [if_neg hs]
    show alistGet? (o ++ [(k, v)]) k = _
    rw [alistGet?_append_of_none o _ k hx, hx]
    simp [alistGet?, List.find?]

theorem dictGet?_setdefault_other (o : Obj) (k k2 : String) (v : Json)
    (h : k2 ≠ k) :
    dictGet? (dictSetdefault o k v) k2 = dictGet? o k2 := by
  have hne : (k == k2) = false := by
    simp only [beq_eq_false_iff_ne, ne_eq]
    exact fun he => h he.symm
  unfold dictSetdefault dictHasKey
  by_cases hs : (dictGet? o k).isSome
  · rw [if_pos hs]
  · rw [if_neg hs]
    show alistGet? (o ++ [(k, v)]) k2 = dictGet? o k2
    by_cases h2 : (alistGet? o k2).isSome
    · exact alistGet?_append_of_isSome o _ k2 h2
    · have hx2 : alistGet? o k2 = none := Option.not_isSome_iff_eq_none.mp h2
      rw [alistGet?_append_of_none o _ k2 hx2]
      show _ = alistGet? o k2
      rw [hx2]
      simp [alistGet?, List.find?, hne]

/-! ## Controller state lemmas -/

theorem statusOf_put_self (m : Sessions) (id : String) (v : SessionData) :
    statusOf (putSession m id v) id = some v.status := by
  unfold statusOf getSession putSession
  rw [alistGet?_put_self]
  rfl

theorem statusOf_put_other (m : Sessions) (id id2 : String) (v : SessionData)
    (h : id2 ≠ id) : statusOf (putSession m id v) id2 = statusOf m id2 := by
  unfold statusOf getSession putSession
  rw [alistGet?_put_other m id id2 v h]

theorem statusOf_update_progress (m : Sessions) (id id2 cur : String)
    (completed total : Nat) :
    statusOf (update_progress m id cur completed total) id2 = statusOf m id2 := by
  unfold update_progress modifySession
  cases hx : getSession m id with
  | none => rfl
  | some s =>
      by_cases hid : id2 = id
      · subst hid
        rw [statusOf_put_self]
        unfold statusOf
        rw [hx]
        rfl
      · exact statusOf_put_other m id id2 _ hid

theorem statusOf_set_status_self (m : Sessions) (id : String)
    (st : GenerationStatus) (msg : String) (h : (getSession m id).isSome) :
    statusOf (set_status m id st msg) id = some st := by
  unfold set_status modifySession
  cases hx : getSession m id with
  | none => rw [hx] at h; simp at h
  | some s => rw [statusOf_put_self]

theorem statusOf_create_session_self (m : Sessions) (id : String) :
    statusOf (create_session m id) id = some GenerationStatus.running := by
  unfold create_session
  rw [statusOf_put_self]

/-- `resume` never changes the status of a session whose status is STOPPED:
its guard requires the current status to be PAUSED. -/
theorem statusOf_resume_of_stopped (m : Sessions) (i id : String)
    (h : statusOf m id = some GenerationStatus.stopped) :
    statusOf (resume m i).1 id = some GenerationStatus.stopped := by
  unfold resume
  split
  · rename_i s hx
    by_cases hp : s.status = GenerationStatus.paused
    · rw [if_pos hp]
      by_cases hid : id = i
      · subst hid
        unfold statusOf at h
        rw [hx] at h
        simp at h
        rw [h] at hp
        exact absurd hp (by simp)
      · show statusOf (putSession m i _) id = _
        rw [statusOf_put_other m i id _ hid]
        exact h
    · rw [if_neg hp]
      exact h
  · exact h

/-! ## Claim C3 — is STOPPED terminal under pause/resume? -/

/-- C3 counterexample: the claim "once a session's status is STOPPED, no
subsequent sequence of `pause`/`resume` calls ever moves it back to RUNNING
or PAUSED" is false on the code.  `pause` (generation_control.py lines
49-55) re-marks ANY existing session PAUSED without checking its status, so
`stop` then `pause` yields PAUSED, and a further `resume` yields RUNNING. -/
theorem C3_counterexample :
    statusOf (stop (create_session [] "s") "s").1 "s"
        = some GenerationStatus.stopped ∧
    statusOf (pause (stop (create_session [] "s") "s").1 "s").1 "s"
        = some GenerationStatus.paused ∧
    statusOf (resume (pause (stop (create_session [] "s") "s").1 "s").1 "s").1 "s"
        = some GenerationStatus.running :=
  ⟨rfl, rfl, rfl⟩

/-- C3 amended: once a session's status is STOPPED, no sequence of `resume`
calls alone (on any session ids) ever changes it — `resume` requires the
current status to be PAUSED.  `pause`, however, unconditionally re-marks any
existing session PAUSED, so STOPPED is not terminal under the full
pause/resume interface (see the counterexample). -/
theorem C3_amended_resume_keeps_stopped (m : Sessions) (id : String)
    (h : statusOf m id = some GenerationStatus.stopped) (ops : List String) :
    statusOf (applyResumes m ops) id = some GenerationStatus.stopped := by
  induction ops generalizing m with
  | nil => exact h
  | cons i rest ih => exact ih _ (statusOf_resume_of_stopped m i id h)

/-- Witness for `C3_amended_resume_keeps_stopped` at a concrete stopped
session and a concrete resume sequence. -/
theorem C3_amended_witness :
    statusOf (applyResumes (stop (create_session [] "s") "s").1 ["s", "t", "s"]) "s"
        = some GenerationStatus.stopped :=
  C3_amended_resume_keeps_stopped (stop (create_session [] "s") "s").1 "s" rfl
    ["s", "t", "s"]

/-! ## Claim C7 — `wait_if_paused` return behaviour -/

/-- C7: for every session id and every trace of observed session maps,
`wait_if_paused` returns `true` at the first poll when the status is
RUNNING, returns `false` at the first poll when the session is absent or
its status is STOPPED, and while the status stays PAUSED it never returns
(it keeps polling for any number of polls). -/
theorem C7_wait_if_paused (states : Nat → Sessions) (id : String) :
    (statusOf (states 0) id = some GenerationStatus.running →
      ∀ fuel : Nat, wait_if_paused states id (fuel + 1) = some true) ∧
    ((statusOf (states 0) id = none ∨
      statusOf (states 0) id = some GenerationStatus.stopped) →
      ∀ fuel : Nat, wait_if_paused states id (fuel + 1) = some false) ∧
    ((∀ n, statusOf (states n) id = some GenerationStatus.paused) →
      ∀ fuel : Nat, wait_if_paused states id fuel = none) := by
  refine ⟨fun h fuel => ?_, fun h fuel => ?_, fun h => ?_⟩
  · simp [wait_if_paused, waitCheck, h]
  · cases h with
    | inl h => simp [wait_if_paused, waitCheck, h]
    | inr h => simp [wait_if_paused, waitCheck, h]
  · intro fuel
    induction fuel generalizing states with
    | zero => rfl
    | succ n ih =>
        have h0 := h 0
        simp only [wait_if_paused, waitCheck, h0]
        simpa using ih (fun n => states (n + 1)) (fun n => h (n + 1))

/-- Witness for `C7_wait_if_paused`: a RUNNING trace returns `true`
immediately, an absent session returns `false` immediately, and a
permanently PAUSED trace has not returned after five polls. -/
theorem C7_witness :
    wait_if_paused (fun _ => create_session [] "s") "s" 1 = some true ∧
    wait_if_paused (fun _ => []) "s" 1 = some false ∧
    wait_if_paused (fun _ => (pause (create_session [] "s") "s").1) "s" 5 = none :=
  ⟨(C7_wait_if_paused (fun _ => create_session [] "s") "s").1 rfl 0,
   (C7_wait_if_paused (fun _ => []) "s").2.1 (Or.inl rfl) 0,
   (C7_wait_if_paused (fun _ => (pause (create_session [] "s") "s").1) "s").2.2
     (fun _ => rfl) 5⟩

/-! ## Claim C10 — `wait_if_paused` on COMPLETED/ERROR sessions -/

/-- C10: `wait_if_paused` returns only when the session is absent or its
status is RUNNING or STOPPED; a session pinned at COMPLETED or ERROR is
treated like PAUSED and polled forever — the loop body (generation_control.py
lines 95-104) falls through for every status other than STOPPED and
RUNNING. -/
theorem C10_wait_completed_error_polls_forever (states : Nat → Sessions)
    (id : String) :
    ((∀ n, statusOf (states n) id = some GenerationStatus.completed ∨
           statusOf (states n) id = some GenerationStatus.error) →
      ∀ fuel : Nat, wait_if_paused states id fuel = none) ∧
    (∀ fuel : Nat, ∀ b : Bool, wait_if_paused states id fuel = some b →
      ∃ n, statusOf (states n) id = none ∨
           statusOf (states n) id = some GenerationStatus.running ∨
           statusOf (states n) id = some GenerationStatus.stopped) := by
  constructor
  · intro h fuel
    induction fuel generalizing states with
    | zero => rfl
    | succ n ih =>
        cases h 0 with
        | inl h0 =>
            simp only [wait_if_paused, waitCheck, h0]
            simpa using ih (fun n => states (n + 1)) (fun n => h (n + 1))
        | inr h0 =>
            simp only [wait_if_paused, waitCheck, h0]
            simpa using ih (fun n => states (n + 1)) (fun n => h (n + 1))
  · intro fuel
    induction fuel generalizing states with
    | zero => intro b hb; exact absurd hb (by simp [wait_if_paused])
    | succ n ih =>
        intro b hb
        cases hs : statusOf (states 0) id with
        | none => exact ⟨0, Or.inl hs⟩
        | some st =>
            by_cases h1 : st = GenerationStatus.stopped
            · exact ⟨0, Or.inr (Or.inr (h1 ▸ hs))⟩
            · by_cases h2 : st = GenerationStatus.running
              · exact ⟨0, Or.inr (Or.inl (h2 ▸ hs))⟩
              · have hc : waitCheck (states 0) id = none := by
                  unfold waitCheck
                  rw [hs]
                  simp [h1, h2]
                simp only [wait_if_paused, hc] at hb
                obtain ⟨n2, hn⟩ := ih (fun k => states (k + 1)) b hb
                exact ⟨n2 + 1, hn⟩

/-- Witness for `C10_wait_completed_error_polls_forever`: a session pinned
at COMPLETED has not returned after five polls, and a trace on which the
wait does return (an absent session) exhibits an absent/RUNNING/STOPPED
observation. -/
theorem C10_witness :
    wait_if_paused
        (fun _ => set_status (create_session [] "s") "s"
          GenerationStatus.completed "done") "s" 5 = none ∧
    (∃ k : Nat,
      statusOf ([] : Sessions) "s" = none ∨
      statusOf ([] : Sessions) "s" = some GenerationStatus.running ∨
      statusOf ([] : Sessions) "s" = some GenerationStatus.stopped) :=
  ⟨(C10_wait_completed_error_polls_forever
      (fun _ => set_status (create_session [] "s") "s"
        GenerationStatus.completed "done") "s").1 (fun _ => Or.inl rfl) 5,
   (C10_wait_completed_error_polls_forever
      (fun _ : Nat => ([] : Sessions)) "s").2 1 false rfl⟩

/-! ## Claim C9 — path computation -/

/-- Joining a list whose last element is `t` yields a string ending in `t`. -/
theorem joinSep_append_last (sep : String) (l : List String) (t : String) :
    ∃ pre, joinSep sep (l ++ [t]) = pre ++ t := by
  induction l with
  | nil => exact ⟨"", (String.empty_append t).symm⟩
  | cons x xs ih =>
      cases xs with
      | nil => exact ⟨x ++ sep, rfl⟩
      | cons y ys =>
          obtain ⟨pre, hp⟩ := ih
          refine ⟨x ++ sep ++ pre, ?_⟩
          show x ++ sep ++ joinSep sep ((y :: ys) ++ [t]) = x ++ sep ++ pre ++ t
          rw [hp, String.append_assoc (x ++ sep) pre t]

/-- C9: for the chain A(parent=null) ← B(parent=A) ← C(parent=B) the path is
`"A > B > C"`; the walk terminates on a self-referencing parent (yielding
`"C > C"`) and on an out-of-range parent (yielding just the title); and for
every node list and node the result ends with — hence contains — the node's
own title.  The definition `pathWalk` is accepted by Lean's termination
checker for arbitrary trees and parent links, which is the guarded-walk
termination property itself. -/
theorem C9_path_str (tree : List SectionNode) (node : SectionNode) :
    SectionNode.path_str (⟨"C", 3, 2, some 1⟩ : SectionNode)
        [⟨"A", 1, 0, none⟩, ⟨"B", 2, 1, some 0⟩, ⟨"C", 3, 2, some 1⟩]
        = "A > B > C" ∧
    SectionNode.path_str (⟨"C", 1, 0, some 0⟩ : SectionNode)
        [⟨"C", 1, 0, some 0⟩] = "C > C" ∧
    SectionNode.path_str (⟨"D", 1, 0, some 7⟩ : SectionNode)
        [⟨"D", 1, 0, some 7⟩] = "D" ∧
    ∃ pre, SectionNode.path_str node tree = pre ++ node.title := by
  refine ⟨?_, ?_, ?_, ?_⟩
  · unfold SectionNode.path_str
    rw [pathWalk]
    norm_num
    rw [pathWalk]
    norm_num
    rw [pathWalk]
    simp [joinSep]
  · unfold SectionNode.path_str
    rw [pathWalk]
    norm_num
    rw [pathWalk]
    simp [joinSep]
  · unfold SectionNode.path_str
    rw [pathWalk]
    norm_num [joinSep]
  · unfold SectionNode.path_str
    rw [List.reverse_cons]
    exact joinSep_append_last " > " (pathWalk tree [] node.parent).reverse node.title

/-! ## Claim C8 — evidence-context character budget -/

/-- Python's `s[:n]` never yields more than `n` characters. -/
theorem pyTake_length_le (s : String) (n : Nat) : (pyTake s n).length ≤ n := by
  show (s.data.take n).length ≤ n
  simp

/-- C8: the evidence context is the labelled concatenation of all retrieved
chunks truncated AFTER concatenation (`full_context[:MAX_CONTEXT_CHARS]`,
advanced_generator.py line 122), so its length never exceeds
`MAX_CONTEXT_CHARS` no matter how many collections contributed or how long
the chunks are; and the template prompt embeds exactly the
`MAX_CONTEXT_CHARS`-truncated context (prompts.py line 245). -/
theorem C8_context_budget (rfq_texts : List String)
    (kb_map : List (String × List String)) (title : String) (level : Int)
    (outline_path rfq_excerpt context : String) (td : TemplateData) :
    build_context rfq_texts kb_map
        = pyTake (build_full_context rfq_texts kb_map) MAX_CONTEXT_CHARS ∧
    (build_context rfq_texts kb_map).length ≤ MAX_CONTEXT_CHARS ∧
    ∃ p q, build_template_prompt title level outline_path rfq_excerpt context td
        = p ++ pyTake context MAX_CONTEXT_CHARS ++ q := by
  refine ⟨rfl, pyTake_length_le _ _, ?_⟩
  refine ⟨"\nSECTION TITLE: " ++ title ++ "\nSECTION LEVEL: " ++ toString level ++
    "\nOUTLINE PATH: " ++ outline_path ++ "\n\n[WRITING SAMPLE FROM TEMPLATE]\n" ++
    td.writing_sample ++ "\n\n[RFQ CONTEXT]\n" ++
    pyTake rfq_excerpt MAX_CONTEXT_CHARS ++ "\n\n[EVIDENCE CONTEXT]\n",
    "\n\nINSTRUCTIONS:\n1) Write the \"" ++ title ++
    "\" section matching the style from the template writing sample above\n2) TARGET WORD COUNT: " ++
    toString td.target_words ++
    " (\xb110%)\n3) WRITING STYLE: Match the template\x27s style as closely as possible\n4) TABLES: Include " ++
    toString td.table_count ++
    " table(s) if expected\n5) IMAGES: Suggest " ++
    toString td.image_count ++
    " image placeholder(s) if expected\n6) Use ONLY provided evidence. Insert [[TODO: ...]] for missing information\n7) Follow the JSON schema exactly\n\n" ++
    STRICT_JSON_SCHEMA ++ "\n", ?_⟩
  simp only [build_template_prompt, String.append_assoc]

/-! ## Claim C6 — tolerant two-tier response parsing -/

/-- C6: the response parser first attempts a strict JSON parse; when that
fails it reparses the substring from the first brace to the last brace
(`braceSlice`), so a response whose brace-delimited core is valid JSON
parses successfully via the brace-scan; and when neither tier succeeds the
raised error message carries the original raw text (after its fixed
prefix). -/
theorem C6_two_tier_parsing (errPrefix raw : String) (v : Json) :
    (json_loads raw = some v → parse_llm_response errPrefix raw = Except.ok v) ∧
    (json_loads raw = none → json_loads (braceSlice raw) = some v →
      parse_llm_response errPrefix raw = Except.ok v) ∧
    (json_loads raw = none → json_loads (braceSlice raw) = none →
      parse_llm_response errPrefix raw = Except.error (errPrefix ++ raw)) := by
  refine ⟨fun h => ?_, fun h1 h2 => ?_, fun h1 h2 => ?_⟩
  · simp [parse_llm_response, h]
  · simp [parse_llm_response, h1, h2]
  · simp [parse_llm_response, h1, h2]

/-- Witness for `C6_two_tier_parsing`: a strictly valid response parses; a
response wrapping the JSON object in explanatory prose and a code fence
parses via the brace-scan; a response with no recoverable JSON yields the
error carrying the raw text. -/
theorem C6_witness :
    parse_llm_response "LLM did not return valid JSON. Raw response: "
        "\x7b\"title\": \"A\"\x7d"
        = Except.ok (Json.obj [("title", Json.str "A")]) ∧
    parse_llm_response "LLM did not return valid JSON. Raw response: "
        "Sure! Here is the JSON you asked for:\n```json\n\x7b\"title\": \"A\"\x7d\n``` Hope this helps."
        = Except.ok (Json.obj [("title", Json.str "A")]) ∧
    parse_llm_response "Refinement failed. Raw response: "
        "The model returned no structured data."
        = Except.error ("Refinement failed. Raw response: "
            ++ "The model returned no structured data.") :=
  ⟨(C6_two_tier_parsing "LLM did not return valid JSON. Raw response: "
      "\x7b\"title\": \"A\"\x7d" (Json.obj [("title", Json.str "A")])).1 rfl,
   (C6_two_tier_parsing "LLM did not return valid JSON. Raw response: "
      "Sure! Here is the JSON you asked for:\n```json\n\x7b\"title\": \"A\"\x7d\n``` Hope this helps."
      (Json.obj [("title", Json.str "A")])).2.1 rfl rfl,
   (C6_two_tier_parsing "Refinement failed. Raw response: "
      "The model returned no structured data." Json.null).2.2 rfl rfl⟩

/-! ## Claim C4 — schema completeness and evidence-completeness -/

theorem dictGet?_set_self (o : Obj) (k : String) (v : Json) :
    dictGet? (dictSet o k v) k = some v :=
  alistGet?_put_self o k v

theorem dictGet?_set_other (o : Obj) (k k2 : String) (v : Json) (h : k2 ≠ k) :
    dictGet? (dictSet o k v) k2 = dictGet? o k2 :=
  alistGet?_put_other o k k2 v h

/-- C4 counterexample: the claim "for every generated or fallback section
entry the five list fields `cited_chunks`, `notes`, `risks`, `assumptions`,
`image_suggestions` are present" is false on the code — the section entries
the run appends (advanced_generator.py lines 379-387 and 405-413) carry
only the latter four; no section entry has a `cited_chunks` field (the
cited-chunk data lives on the normalized draft and in the evidence log).
Here a run over one node whose generation succeeded yields a section entry
with no `cited_chunks` key. -/
theorem C4_counterexample :
    dictHasKey ((generate_advanced_proposal
        [(⟨"Executive Summary", 1, 0, none⟩ : SectionNode)] 6
        (fun _ => Except.ok
          ([("cited_chunks", Json.arr [Json.str "doc1#p1"])],
           [("title", Json.str "Executive Summary"),
            ("content", Json.str "body"),
            ("notes", Json.arr []),
            ("risks", Json.arr []),
            ("assumptions", Json.arr []),
            ("image_suggestions", Json.arr [])]))
        (fun _ => true) none []).sections.getD 0 []) "cited_chunks" = false :=
  rfl

/-- C4 amended: every fallback section entry carries `notes`, `risks`,
`assumptions` and `image_suggestions` as empty lists and no `cited_chunks`
field; every generated section entry carries those four fields with the
refine output's values (defaulting to empty lists only when the refine
output omits them) and likewise no `cited_chunks` field.  The five-field
guarantee including `cited_chunks` holds of the normalized draft
(`generate_advanced_section`, lines 173-181): all five keys are present
there, fields the model omitted default to empty lists, and `cited_chunks`
is a deduplicated list containing every non-empty retrieved provenance id
even when the model's own output cited none of them. -/
theorem C4_amended (node : SectionNode) (e : String) (r output : Obj)
    (ids : List String) :
    pyGet (fallbackSection node e) "notes" Json.null = Json.arr [] ∧
    pyGet (fallbackSection node e) "risks" Json.null = Json.arr [] ∧
    pyGet (fallbackSection node e) "assumptions" Json.null = Json.arr [] ∧
    pyGet (fallbackSection node e) "image_suggestions" Json.null = Json.arr [] ∧
    dictHasKey (fallbackSection node e) "cited_chunks" = false ∧
    dictHasKey (happySection node r) "notes" = true ∧
    dictHasKey (happySection node r) "risks" = true ∧
    dictHasKey (happySection node r) "assumptions" = true ∧
    dictHasKey (happySection node r) "image_suggestions" = true ∧
    dictHasKey (happySection node r) "cited_chunks" = false ∧
    pyGet (happySection node r) "notes" Json.null = pyGet r "notes" (Json.arr []) ∧
    ((dictGet? output "cited_chunks" = none ∨
      (∃ l, dictGet? output "cited_chunks" = some (Json.arr l))) →
      ∃ o c, normalizeDraft output ids = Except.ok o ∧
        dictGet? o "cited_chunks" = some (Json.arr c) ∧
        c.Nodup ∧
        (∀ s ∈ ids, s ≠ "" → Json.str s ∈ c) ∧
        dictHasKey o "image_suggestions" = true ∧
        dictHasKey o "notes" = true ∧
        dictHasKey o "risks" = true ∧
        dictHasKey o "assumptions" = true ∧
        (dictGet? output "notes" = none → dictGet? o "notes" = some (Json.arr [])) ∧
        (dictGet? output "risks" = none → dictGet? o "risks" = some (Json.arr [])) ∧
        (dictGet? output "assumptions" = none →
          dictGet? o "assumptions" = some (Json.arr [])) ∧
        (dictGet? output "image_suggestions" = none →
          dictGet? o "image_suggestions" = some (Json.arr []))) := by
  refine ⟨rfl, rfl, rfl, rfl, rfl, rfl, rfl, rfl, rfl, rfl, rfl, fun h => ?_⟩
  have hl0 : ∃ l0 : List Json,
      dictGet? (dictSetdefault output "cited_chunks" (Json.arr []))
        "cited_chunks" = some (Json.arr l0) := by
    cases h with
    | inl hn => exact ⟨[], by rw [dictGet?_setdefault_self, hn]; rfl⟩
    | inr hs =>
        obtain ⟨l, hl⟩ := hs
        exact ⟨l, by rw [dictGet?_setdefault_self, hl]; rfl⟩
  obtain ⟨l0, hl0⟩ := hl0
  have heval : normalizeDraft output ids = Except.ok (normalizeOthers (dictSet
      (dictSetdefault output "cited_chunks" (Json.arr []))
      "cited_chunks"
      (Json.arr ((l0 ++ (ids.filter (fun r => r != "")).map Json.str).dedup)))) := by
    unfold normalizeDraft
    split
    · rename_i cited heq
      rw [hl0] at heq
      injection heq with heq2
      injection heq2 with heq3
      rw [heq3]
    · rename_i hne
      exact absurd hl0 (hne l0)
  set c0 : List Json :=
    (l0 ++ (ids.filter (fun r => r != "")).map Json.str).dedup with hc0
  set o2 : Obj := dictSet (dictSetdefault output "cited_chunks" (Json.arr []))
    "cited_chunks" (Json.arr c0) with ho2
  refine ⟨normalizeOthers o2, c0, heval, ?_, ?_, ?_, ?_, ?_, ?_, ?_, ?_, ?_, ?_, ?_⟩
  · show dictGet? (normalizeOthers o2) "cited_chunks" = some (Json.arr c0)
    unfold normalizeOthers
    rw [dictGet?_setdefault_other _ _ _ _ (by decide),
        dictGet?_setdefault_other _ _ _ _ (by decide),
        dictGet?_setdefault_other _ _ _ _ (by decide),
        dictGet?_setdefault_other _ _ _ _ (by decide),
        ho2, dictGet?_set_self]
  · exact List.nodup_dedup _
  · intro s hs hne
    rw [hc0]
    apply List.mem_dedup.mpr
    apply List.mem_append_right
    exact List.mem_map.mpr ⟨s, List.mem_filter.mpr ⟨hs, by simp [hne]⟩, rfl⟩
  · unfold normalizeOthers dictHasKey
    rw [dictGet?_setdefault_other _ _ _ _ (by decide),
        dictGet?_setdefault_other _ _ _ _ (by decide),
        dictGet?_setdefault_other _ _ _ _ (by decide),
        dictGet?_setdefault_self]
    rfl
  · unfold normalizeOthers dictHasKey
    rw [dictGet?_setdefault_other _ _ _ _ (by decide),
        dictGet?_setdefault_other _ _ _ _ (by decide),
        dictGet?_setdefault_self]
    rfl
  · unfold normalizeOthers dictHasKey
    rw [dictGet?_setdefault_other _ _ _ _ (by decide),
        dictGet?_setdefault_self]
    rfl
  · unfold normalizeOthers dictHasKey
    rw [dictGet?_setdefault_self]
    rfl
  · intro hn
    unfold normalizeOthers
    rw [dictGet?_setdefault_other _ _ _ _ (by decide),
        dictGet?_setdefault_other _ _ _ _ (by decide),
        dictGet?_setdefault_self,
        dictGet?_setdefault_other _ _ _ _ (by decide),
        ho2, dictGet?_set_other _ _ _ _ (by decide),
        dictGet?_setdefault_other _ _ _ _ (by decide), hn]
    rfl
  · intro hn
    unfold normalizeOthers
    rw [dictGet?_setdefault_other _ _ _ _ (by decide),
        dictGet?_setdefault_self,
        dictGet?_setdefault_other _ _ _ _ (by decide),
        dictGet?_setdefault_other _ _ _ _ (by decide),
        ho2, dictGet?_set_other _ _ _ _ (by decide),
        dictGet?_setdefault_other _ _ _ _ (by decide), hn]
    rfl
  · intro hn
    unfold normalizeOthers
    rw [dictGet?_setdefault_self,
        dictGet?_setdefault_other _ _ _ _ (by decide),
        dictGet?_setdefault_other _ _ _ _ (by decide),
        dictGet?_setdefault_other _ _ _ _ (by decide),
        ho2, dictGet?_set_other _ _ _ _ (by decide),
        dictGet?_setdefault_other _ _ _ _ (by decide), hn]
    rfl
  · intro hn
    unfold normalizeOthers
    rw [dictGet?_setdefault_other _ _ _ _ (by decide),
        dictGet?_setdefault_other _ _ _ _ (by decide),
        dictGet?_setdefault_other _ _ _ _ (by decide),
        dictGet?_setdefault_self,
        ho2, dictGet?_set_other _ _ _ _ (by decide),
        dictGet?_setdefault_other _ _ _ _ (by decide), hn]
    rfl

/-- Witness for `C4_amended` at a concrete draft output (which omitted
`notes` and cited nothing) and concrete retrieved ids. -/
theorem C4_amended_witness :
    pyGet (fallbackSection (⟨"T", 1, 0, none⟩ : SectionNode) "boom") "notes"
        Json.null = Json.arr [] ∧
    (∃ o c, normalizeDraft [("title", Json.str "T")] ["doc1#p1", ""]
        = Except.ok o ∧
      dictGet? o "cited_chunks" = some (Json.arr c) ∧
      Json.str "doc1#p1" ∈ c) := by
  have h := C4_amended (⟨"T", 1, 0, none⟩ : SectionNode) "boom" []
    [("title", Json.str "T")] ["doc1#p1", ""]
  refine ⟨h.1, ?_⟩
  obtain ⟨o, c, h1, h2, _h3, h4, _⟩ :=
    h.2.2.2.2.2.2.2.2.2.2.2 (Or.inl rfl)
  exact ⟨o, c, h1, h2, h4 "doc1#p1" (by simp) (by simp)⟩

/-! ## Run-loop characterization (claims C1, C2, C5) -/

theorem processedSections_length (gen : Nat → Except String (Obj × Obj))
    (l : List SectionNode) : ∀ idx, (processedSections gen l idx).length = l.length := by
  induction l with
  | nil => intro idx; rfl
  | cons node rest ih =>
      intro idx
      simp [processedSections, ih (idx + 1)]

theorem processedEvidence_length (tree : List SectionNode) (top_k : Nat)
    (gen : Nat → Except String (Obj × Obj)) (l : List SectionNode) :
    ∀ idx, (processedEvidence tree top_k gen l idx).length
      = okCountFrom gen idx l.length := by
  induction l with
  | nil => intro idx; rfl
  | cons node rest ih =>
      intro idx
      cases hg : gen idx with
      | ok p =>
          cases p with
          | mk d r2 =>
              simp [processedEvidence, okCountFrom, hg, genOk, ih (idx + 1),
                Nat.add_comm]
      | error e => simp [processedEvidence, okCountFrom, hg, genOk, ih (idx + 1)]

theorem okCountFrom_all_ok (gen : Nat → Except String (Obj × Obj)) :
    ∀ n idx, (∀ j, j < n → genOk (gen (idx + j)) = true) →
      okCountFrom gen idx n = n := by
  intro n
  induction n with
  | zero => intro idx _; rfl
  | succ n ih =>
      intro idx h
      have h0 : genOk (gen idx) = true := by
        have := h 0 (Nat.succ_pos n)
        simpa using this
      have hrest : ∀ j, j < n → genOk (gen (idx + 1 + j)) = true := by
        intro j hj
        have := h (j + 1) (Nat.succ_lt_succ hj)
        simpa [Nat.add_assoc, Nat.add_comm 1 j] using this
      simp [okCountFrom, h0, ih (idx + 1) hrest, Nat.add_comm]

theorem processedEvidence_titles (tree : List SectionNode) (top_k : Nat)
    (gen : Nat → Except String (Obj × Obj)) (l : List SectionNode) :
    ∀ idx, (∀ j, j < l.length → genOk (gen (idx + j)) = true) →
      (processedEvidence tree top_k gen l idx).map
          (fun o => pyGet o "title" Json.null)
        = l.map (fun n => Json.str n.title) := by
  induction l with
  | nil => intro idx _; rfl
  | cons node rest ih =>
      intro idx h
      have h0 : genOk (gen idx) = true := by
        have := h 0 (Nat.succ_pos rest.length)
        simpa using this
      cases hg : gen idx with
      | ok p =>
          cases p with
          | mk d r2 =>
              have hrest : ∀ j, j < rest.length → genOk (gen (idx + 1 + j)) = true := by
                intro j hj
                have := h (j + 1) (Nat.succ_lt_succ hj)
                simpa [Nat.add_assoc, Nat.add_comm 1 j] using this
              simp only [processedEvidence, hg, List.map_cons]
              rw [ih (idx + 1) hrest]
              rfl
      | error e => rw [hg] at h0; simp [genOk] at h0

theorem processedSections_getD (gen : Nat → Except String (Obj × Obj))
    (l : List SectionNode) :
    ∀ idx j, j < l.length →
      (processedSections gen l idx).getD j []
        = nodeResult (l.getD j ⟨"", 0, 0, none⟩) (gen (idx + j)) := by
  induction l with
  | nil => intro idx j h; exact absurd h (by simp)
  | cons node rest ih =>
      intro idx j h
      cases j with
      | zero => simp [processedSections]
      | succ j =>
          have hj : j < rest.length := Nat.lt_of_succ_lt_succ h
          have := ih (idx + 1) j hj
          simp only [processedSections, List.getD_cons_succ]
          rw [this, Nat.add_assoc, Nat.add_comm 1 j]

/-- A session run whose controller never signals a stop (or a session-less
run) traverses every node: the sections and evidence lists are exactly the
fully-processed lists, and the controller writes made inside the loop
(progress updates only) never change any session's status. -/
theorem runNodes_no_stop (tree : List SectionNode) (top_k : Nat)
    (gen : Nat → Except String (Obj × Obj)) (waitRes : Nat → Bool)
    (sid : Option String)
    (hside : sid = none ∨ ∀ i, waitRes i = true)
    (l : List SectionNode) :
    ∀ (idx : Nat) (secs ev : List Obj) (m : Sessions),
      (runNodes tree top_k gen waitRes sid l idx secs ev m).sections
          = secs ++ processedSections gen l idx ∧
      (runNodes tree top_k gen waitRes sid l idx secs ev m).evidence
          = ev ++ processedEvidence tree top_k gen l idx ∧
      (∀ id2, statusOf (runNodes tree top_k gen waitRes sid l idx secs ev m).ctrl id2
          = statusOf m id2) := by
  induction l with
  | nil =>
      intro idx secs ev m
      cases sid with
      | none => exact ⟨by simp [runNodes, processedSections],
          by simp [runNodes, processedEvidence], fun id2 => rfl⟩
      | some id => exact ⟨by simp [runNodes, processedSections],
          by simp [runNodes, processedEvidence], fun id2 => rfl⟩
  | cons node rest ih =>
      intro idx secs ev m
      cases sid with
      | none =>
          cases hg : gen idx with
          | ok p =>
              cases p with
              | mk d r2 =>
                  have h2 := ih (idx + 1) (secs ++ [happySection node r2])
                    (ev ++ [evidenceEntry node (node.path_str tree) top_k d r2]) m
                  simp only [runNodes, hg]
                  refine ⟨?_, ?_, h2.2.2⟩
                  · rw [h2.1]
                    simp [processedSections, nodeResult, hg]
                  · rw [h2.2.1]
                    simp [processedEvidence, hg]
          | error e =>
              have h2 := ih (idx + 1) (secs ++ [fallbackSection node e]) ev m
              simp only [runNodes, hg]
              refine ⟨?_, ?_, h2.2.2⟩
              · rw [h2.1]
                simp [processedSections, nodeResult, hg]
              · rw [h2.2.1]
                simp [processedEvidence, hg]
      | some id =>
          have hw : ∀ i, waitRes i = true := by
            cases hside with
            | inl h => exact absurd h (by simp)
            | inr h => exact h
          cases hg : gen idx with
          | ok p =>
              cases p with
              | mk d r2 =>
                  have h2 := ih (idx + 1) (secs ++ [happySection node r2])
                    (ev ++ [evidenceEntry node (node.path_str tree) top_k d r2])
                    (update_progress m id node.title idx tree.length)
                  simp only [runNodes, hg, hw idx, Bool.not_true,
                    Bool.false_eq_true, if_false]
                  refine ⟨?_, ?_, fun id2 => ?_⟩
                  · rw [h2.1]
                    simp [processedSections, nodeResult, hg]
                  · rw [h2.2.1]
                    simp [processedEvidence, hg]
                  · rw [h2.2.2 id2, statusOf_update_progress]
          | error e =>
              have h2 := ih (idx + 1) (secs ++ [fallbackSection node e]) ev
                (update_progress m id node.title idx tree.length)
              simp only [runNodes, hg, hw idx, Bool.not_true,
                Bool.false_eq_true, if_false]
              refine ⟨?_, ?_, fun id2 => ?_⟩
              · rw [h2.1]
                simp [processedSections, nodeResult, hg]
              · rw [h2.2.1]
                simp [processedEvidence, hg]
              · rw [h2.2.2 id2, statusOf_update_progress]

theorem statusOf_isSome (m : Sessions) (id : String) (st : GenerationStatus)
    (h : statusOf m id = some st) : (getSession m id).isSome := by
  unfold statusOf at h
  cases hx : getSession m id
  · rw [hx] at h
    simp at h
  · simp

/-! ## Claim C1 — sections / evidence-log alignment -/

/-- C1 counterexample: the claim that `sections` and
`evidence_log.sections` always have the same length, including nodes whose
generation failed, is false on the code: the evidence-log append sits
inside the per-node `try` (advanced_generator.py lines 389-398) while the
exception handler appends only a placeholder section (lines 402-413),
so a run over one failing node yields one section and zero evidence
entries. -/
theorem C1_counterexample :
    (generate_advanced_proposal
        [(⟨"Executive Summary", 1, 0, none⟩ : SectionNode)] 6
        (fun _ => Except.error "boom") (fun _ => true) none []).sections.length
      = 1 ∧
    (generate_advanced_proposal
        [(⟨"Executive Summary", 1, 0, none⟩ : SectionNode)] 6
        (fun _ => Except.error "boom") (fun _ => true) none []).evidence.length
      = 0 :=
  ⟨rfl, rfl⟩

/-- C1 amended: over a full traversal, `sections` gets exactly one entry
per outline node, in traversal order, but `evidence_log.sections` gets one
entry only per node whose generation succeeded (a failed node contributes a
placeholder section and no evidence entry).  The two lists therefore have
equal length — and the evidence entries carry the node titles in traversal
order — exactly when every node succeeded. -/
theorem C1_amended (nodes : List SectionNode) (top_k : Nat)
    (gen : Nat → Except String (Obj × Obj)) :
    (generate_advanced_proposal nodes top_k gen (fun _ => true) none
        []).sections.length = nodes.length ∧
    (generate_advanced_proposal nodes top_k gen (fun _ => true) none
        []).evidence.length = okCountFrom gen 0 nodes.length ∧
    ((∀ j, j < nodes.length → genOk (gen j) = true) →
      (generate_advanced_proposal nodes top_k gen (fun _ => true) none
          []).evidence.length = nodes.length ∧
      (generate_advanced_proposal nodes top_k gen (fun _ => true) none
          []).evidence.map (fun o => pyGet o "title" Json.null)
        = nodes.map (fun n => Json.str n.title)) := by
  have h := runNodes_no_stop nodes top_k gen (fun _ => true) none (Or.inl rfl)
    nodes 0 [] [] []
  have hsec : (generate_advanced_proposal nodes top_k gen (fun _ => true) none
      []).sections = processedSections gen nodes 0 := by
    show (runNodes nodes top_k gen (fun _ => true) none nodes 0 [] [] []).sections = _
    rw [h.1]
    simp
  have hev : (generate_advanced_proposal nodes top_k gen (fun _ => true) none
      []).evidence = processedEvidence nodes top_k gen nodes 0 := by
    show (runNodes nodes top_k gen (fun _ => true) none nodes 0 [] [] []).evidence = _
    rw [h.2.1]
    simp
  refine ⟨?_, ?_, fun hok => ⟨?_, ?_⟩⟩
  · rw [hsec, processedSections_length]
  · rw [hev, processedEvidence_length]
  · rw [hev, processedEvidence_length]
    exact okCountFrom_all_ok gen nodes.length 0 (fun j hj => by
      simpa using hok j hj)
  · rw [hev]
    exact processedEvidence_titles nodes top_k gen nodes 0 (fun j hj => by
      simpa using hok j hj)

/-- Witness for `C1_amended` at a concrete two-node all-successful run. -/
theorem C1_amended_witness :
    (generate_advanced_proposal
        [(⟨"A", 1, 0, none⟩ : SectionNode), ⟨"B", 1, 1, none⟩] 6
        (fun _ => Except.ok (([] : Obj), ([] : Obj))) (fun _ => true) none
        []).sections.length = 2 ∧
    (generate_advanced_proposal
        [(⟨"A", 1, 0, none⟩ : SectionNode), ⟨"B", 1, 1, none⟩] 6
        (fun _ => Except.ok (([] : Obj), ([] : Obj))) (fun _ => true) none
        []).evidence.length = 2 := by
  have h := C1_amended [(⟨"A", 1, 0, none⟩ : SectionNode), ⟨"B", 1, 1, none⟩] 6
    (fun _ => Except.ok (([] : Obj), ([] : Obj)))
  exact ⟨h.1, (h.2.2 (fun j _ => rfl)).1⟩

/-! ## Claim C2 — stop at a node boundary -/

/-- C2: the code does stop traversal at the boundary and does return the
partial result, but the session's FINAL status is COMPLETED, not STOPPED:
the stop branch (advanced_generator.py lines 343-346) sets STOPPED and
breaks, and the unconditional completion block after the loop (lines
417-420) immediately overwrites it with COMPLETED ("Proposal generation
completed") — contradicting the intent the code itself expresses two lines
earlier.  At the failing input (five nodes, stop observed at the third
boundary): the loop exits with status STOPPED, the returned proposal has
exactly the 2 completed sections, and the final status is COMPLETED. -/
theorem C2_stop_status_overwritten :
    statusOf (runNodes
        [(⟨"A", 1, 0, none⟩ : SectionNode), ⟨"B", 1, 1, none⟩, ⟨"C", 1, 2, none⟩,
          ⟨"D", 1, 3, none⟩, ⟨"E", 1, 4, none⟩] 6
        (fun _ => Except.ok (([] : Obj), ([] : Obj)))
        (fun i => decide (i < 2)) (some "s")
        [(⟨"A", 1, 0, none⟩ : SectionNode), ⟨"B", 1, 1, none⟩, ⟨"C", 1, 2, none⟩,
          ⟨"D", 1, 3, none⟩, ⟨"E", 1, 4, none⟩] 0 [] []
        (update_progress (create_session [] "s") "s" "" 0 5)).ctrl "s"
      = some GenerationStatus.stopped ∧
    (generate_advanced_proposal
        [(⟨"A", 1, 0, none⟩ : SectionNode), ⟨"B", 1, 1, none⟩, ⟨"C", 1, 2, none⟩,
          ⟨"D", 1, 3, none⟩, ⟨"E", 1, 4, none⟩] 6
        (fun _ => Except.ok (([] : Obj), ([] : Obj)))
        (fun i => decide (i < 2)) (some "s") []).sections.length = 2 ∧
    statusOf (generate_advanced_proposal
        [(⟨"A", 1, 0, none⟩ : SectionNode), ⟨"B", 1, 1, none⟩, ⟨"C", 1, 2, none⟩,
          ⟨"D", 1, 3, none⟩, ⟨"E", 1, 4, none⟩] 6
        (fun _ => Except.ok (([] : Obj), ([] : Obj)))
        (fun i => decide (i < 2)) (some "s") []).ctrl "s"
      = some GenerationStatus.completed :=
  ⟨rfl, rfl, rfl⟩

/-! ## Claim C5 — per-node failure isolation -/

/-- C5: when generation of node `j` raises (any exception inside the node's
try block — retrieval, drafting, refining), the exception is absorbed at
the node boundary: the run still produces one section entry per node, node
`j`'s entry is the placeholder whose content ends with the original error
text, every other successful node produces its normal entry, and the run
completes (the session is marked COMPLETED, not failed). -/
theorem C5_failure_isolation (nodes : List SectionNode) (top_k : Nat)
    (gen : Nat → Except String (Obj × Obj)) (waitRes : Nat → Bool)
    (id : String) (m0 : Sessions) (j : Nat) (e : String)
    (hw : ∀ i, waitRes i = true)
    (hj : j < nodes.length) (hgj : gen j = Except.error e) :
    (generate_advanced_proposal nodes top_k gen waitRes (some id)
        m0).sections.length = nodes.length ∧
    (generate_advanced_proposal nodes top_k gen waitRes (some id)
        m0).sections.getD j []
      = fallbackSection (nodes.getD j ⟨"", 0, 0, none⟩) e ∧
    (∃ pre, pyGet ((generate_advanced_proposal nodes top_k gen waitRes (some id)
        m0).sections.getD j []) "content" Json.null = Json.str (pre ++ e)) ∧
    (∀ i, i < nodes.length → ∀ d r2, gen i = Except.ok (d, r2) →
      (generate_advanced_proposal nodes top_k gen waitRes (some id)
          m0).sections.getD i []
        = happySection (nodes.getD i ⟨"", 0, 0, none⟩) r2) ∧
    statusOf (generate_advanced_proposal nodes top_k gen waitRes (some id)
        m0).ctrl id = some GenerationStatus.completed := by
  have h := runNodes_no_stop nodes top_k gen waitRes (some id) (Or.inr hw)
    nodes 0 [] [] (update_progress (create_session m0 id) id "" 0 nodes.length)
  have hsec : (generate_advanced_proposal nodes top_k gen waitRes (some id)
      m0).sections = processedSections gen nodes 0 := by
    show (runNodes nodes top_k gen waitRes (some id) nodes 0 [] []
      (update_progress (create_session m0 id) id "" 0 nodes.length)).sections = _
    rw [h.1]
    simp
  refine ⟨?_, ?_, ?_, ?_, ?_⟩
  · rw [hsec, processedSections_length]
  · rw [hsec, processedSections_getD gen nodes 0 j hj]
    simp [nodeResult, hgj]
  · rw [hsec, processedSections_getD gen nodes 0 j hj]
    refine ⟨"**" ++ (nodes.getD j ⟨"", 0, 0, none⟩).title ++
      "**\n\nContent generation failed. Please regenerate this section.\n\nError: ", ?_⟩
    simp only [Nat.zero_add, hgj]
    rfl
  · intro i hi d r2 hgi
    rw [hsec, processedSections_getD gen nodes 0 i hi]
    simp [nodeResult, hgi]
  · have hct : statusOf (generate_advanced_proposal nodes top_k gen waitRes
        (some id) m0).ctrl id
      = statusOf (set_status (runNodes nodes top_k gen waitRes (some id) nodes 0
          [] [] (update_progress (create_session m0 id) id "" 0
            nodes.length)).ctrl id GenerationStatus.completed
          "Proposal generation completed") id := by
      show statusOf (update_progress (set_status _ id GenerationStatus.completed
        "Proposal generation completed") id "Completed" nodes.length
          nodes.length) id = _
      rw [statusOf_update_progress]
    rw [hct]
    apply statusOf_set_status_self
    apply statusOf_isSome _ id GenerationStatus.running
    rw [h.2.2 id, statusOf_update_progress, statusOf_create_session_self]

/-- Witness for `C5_failure_isolation`: three nodes, node 1 fails with
"boom", nodes 0 and 2 succeed; the run yields three sections with the
placeholder in position 1, the normal entry in position 0, and a COMPLETED
session. -/
theorem C5_witness :
    (generate_advanced_proposal
        [(⟨"A", 1, 0, none⟩ : SectionNode), ⟨"B", 1, 1, none⟩, ⟨"C", 1, 2, none⟩] 6
        (fun i => if i = 1 then Except.error "boom"
          else Except.ok (([] : Obj), ([("title", Json.str "X")] : Obj)))
        (fun _ => true) (some "s") []).sections.length = 3 ∧
    (generate_advanced_proposal
        [(⟨"A", 1, 0, none⟩ : SectionNode), ⟨"B", 1, 1, none⟩, ⟨"C", 1, 2, none⟩] 6
        (fun i => if i = 1 then Except.error "boom"
          else Except.ok (([] : Obj), ([("title", Json.str "X")] : Obj)))
        (fun _ => true) (some "s") []).sections.getD 1 []
      = fallbackSection (⟨"B", 1, 1, none⟩ : SectionNode) "boom" ∧
    (generate_advanced_proposal
        [(⟨"A", 1, 0, none⟩ : SectionNode), ⟨"B", 1, 1, none⟩, ⟨"C", 1, 2, none⟩] 6
        (fun i => if i = 1 then Except.error "boom"
          else Except.ok (([] : Obj), ([("title", Json.str "X")] : Obj)))
        (fun _ => true) (some "s") []).sections.getD 0 []
      = happySection (⟨"A", 1, 0, none⟩ : SectionNode)
          [("title", Json.str "X")] ∧
    statusOf (generate_advanced_proposal
        [(⟨"A", 1, 0, none⟩ : SectionNode), ⟨"B", 1, 1, none⟩, ⟨"C", 1, 2, none⟩] 6
        (fun i => if i = 1 then Except.error "boom"
          else Except.ok (([] : Obj), ([("title", Json.str "X")] : Obj)))
        (fun _ => true) (some "s") []).ctrl "s" = some GenerationStatus.completed := by
  have h := C5_failure_isolation
    [(⟨"A", 1, 0, none⟩ : SectionNode), ⟨"B", 1, 1, none⟩, ⟨"C", 1, 2, none⟩] 6
    (fun i => if i = 1 then Except.error "boom"
      else Except.ok (([] : Obj), ([("title", Json.str "X")] : Obj)))
    (fun _ => true) "s" [] 1 "boom" (fun _ => rfl) (by norm_num) rfl
  exact ⟨h.1, h.2.1, h.2.2.2.1 0 (by norm_num) [] [("title", Json.str "X")] rfl,
    h.2.2.2.2⟩
